import Mathlib

/-!
Verification of the cursor-commander control plane.

This file gives a shallow embedding of the repository's two processes:

* the command listener that runs inside the editor host (`extension.ts`,
  latest revision: workspace-keyed port files and timestamp-polling
  activity detection), and
* the MCP bridge process (`mcp-bridge.mjs`, latest revision: workspace
  discovery with sentinel and legacy fallback).

Machine-level details follow the JavaScript source: `parseInt` is modelled
as a partial-prefix decimal parser that yields `none` for `NaN`, string
coercion of possibly-absent values renders `undefined`, and the
filesystem/network are passed in as explicit read functions.
-/

namespace CursorCommander

/-! ## Workspace identity sanitisation

Source: `sanitizeWorkspacePath` in both the extension and the bridge:
`fsPath.replace(/^\//, '').replace(/\//g, '-')` — strip one leading
path separator, then replace every remaining separator with a dash.
-/

/-- Character replacement performed by the second `replace`: `/` becomes `-`. -/
def replSlash (c : Char) : Char := if c = '/' then '-' else c

/-- Strip a single leading `/` — the `replace(/^\//, '')` step. -/
def stripLeadingSlash : List Char → List Char
  | c :: rest => if c = '/' then rest else c :: rest
  | [] => []

/-- Embedding of `sanitizeWorkspacePath` (identical in `part_001` line 10
and `part_003` line 14). -/
def sanitizeWorkspacePath (s : String) : String :=
  String.mk ((stripLeadingSlash s.data).map replSlash)

/-! ## Discovery Store (bridge side)

Source: `getPort` in `mcp-bridge.mjs` (`part_003` lines 18-37). The
filesystem is passed in as `read : String → Option String` (path to file
contents; `none` models a failing `readFileSync`). JavaScript `parseInt`
never throws: it skips leading whitespace, takes an optional sign and the
longest digit prefix, and yields `NaN` when there is no digit — modelled
as `Option Int` with `none` for `NaN`.
-/

/-- Numeric value of a digit string. -/
def digitsToNat (ds : List Char) : Nat :=
  ds.foldl (fun acc c => acc * 10 + (c.toNat - 48)) 0

/-- Parse the longest digit prefix, `none` when there is no digit (`NaN`). -/
def jsParseIntCore (neg : Bool) (cs : List Char) : Option Int :=
  let ds := cs.takeWhile Char.isDigit
  if ds.isEmpty then none
  else some (if neg then -(digitsToNat ds : Int) else (digitsToNat ds : Int))

/-- Embedding of JavaScript `parseInt(s, 10)`. -/
def jsParseInt (s : String) : Option Int :=
  match s.data.dropWhile Char.isWhitespace with
  | '-' :: rest => jsParseIntCore true rest
  | '+' :: rest => jsParseIntCore false rest
  | cs => jsParseIntCore false cs

/-- Embedding of JavaScript `String.prototype.trim`. -/
def jsTrim (s : String) : String :=
  String.mk (((s.data.dropWhile Char.isWhitespace).reverse.dropWhile
    Char.isWhitespace).reverse)

/-- `PORTS_DIR` from the bridge and extension sources. -/
def portsDir (home : String) : String := home ++ "/.cursor-commander-ports"

/-- `LEGACY_PORT_FILE` from the bridge source. -/
def legacyPortFile (home : String) : String := home ++ "/.cursor-commander-port"

/-- The three candidate record paths probed by `getPort`, in order. -/
def portCandidates (home cwd : String) : List String :=
  [portsDir home ++ "/" ++ sanitizeWorkspacePath cwd,
   portsDir home ++ "/_default",
   legacyPortFile home]

/-- The error message thrown when no candidate record can be read. -/
def notRunningMsg (cwd : String) : String :=
  "Cursor Commander extension is not running for workspace " ++ cwd ++
  ". Install the .vsix and restart Cursor."

/-- Embedding of the bridge's `getPort` (`part_003` lines 18-37): return
`parseInt(trim(contents))` of the first candidate whose record can be
read — note the `try` only guards `readFileSync`, so an unparseable record
yields `NaN` (`Except.ok none`) rather than falling through — and throw
the not-running message when no candidate is readable. -/
def getPort (home : String) (read : String → Option String) (cwd : String) :
    Except String (Option Int) :=
  match (portCandidates home cwd).findSome?
      (fun c => (read c).map fun content => jsParseInt (jsTrim content)) with
  | some p => Except.ok p
  | none => Except.error (notRunningMsg cwd)

/-- Concrete store for the C2 counterexample: the workspace record exists
but holds a non-numeric string. -/
def badRead : String → Option String := fun p =>
  if p = "/home/u/.cursor-commander-ports/proj" then some "garbage" else none

/-- Concrete store for the C2 witness: the workspace record holds a port. -/
def goodRead : String → Option String := fun p =>
  if p = "/home/u/.cursor-commander-ports/Users-alice-proj" then some "54321"
  else none

/-! ## Activity Monitor (presence state machine)

Source: the module-level mutable state and functions of `part_001`
(lines 28-86): `currentStatus`, `lastRequestTime`, `flashInterval`,
`flashOn`, the status-bar item, `startFlash`, `stopFlash`,
`setAgentStatusDisplay`, `onRequestActivity` and `startActivityPolling`.
Times are milliseconds as `Nat`. The `events` field is instrumentation:
it records, in order, each state actually entered (the branch of
`setAgentStatusDisplay` past the dedup check, where the visual side
effects fire); the dedup no-op branch appends nothing. The
`liveFlashTimers` field counts `setInterval` timers created by
`startFlash` and not yet cleared by `stopFlash`; `flashInterval` is
whether the `flashInterval` handle variable currently holds a timer.
-/

/-- The three presence states; `hidden` is initial. -/
inductive Status where
  | thinking
  | idle
  | hidden
  deriving DecidableEq, Repr

/-- `IDLE_AFTER_MS` from `part_001` line 8. -/
def IDLE_AFTER_MS : Nat := 8000

/-- The Activity Monitor's mutable state. -/
structure MonitorState where
  currentStatus : Status
  lastRequestTime : Nat
  flashInterval : Bool
  flashOn : Bool
  itemShown : Bool
  liveFlashTimers : Nat
  events : List Status
  deriving DecidableEq, Repr

/-- State right after `activate` initialises the module globals: status
`hidden`, `lastRequestTime = 0`, no flash timer, status-bar item not yet
shown. -/
def initialMonitor : MonitorState :=
  { currentStatus := Status.hidden
    lastRequestTime := 0
    flashInterval := false
    flashOn := true
    itemShown := false
    liveFlashTimers := 0
    events := [] }

/-- Embedding of `startFlash` (lines 39-47): no-op when a flash interval
already exists; otherwise reset `flashOn` and create the interval. -/
def startFlash (m : MonitorState) : MonitorState :=
  if m.flashInterval then m
  else { m with flashOn := true, flashInterval := true,
                liveFlashTimers := m.liveFlashTimers + 1 }

/-- Embedding of `stopFlash` (lines 49-52): clear the interval when one
exists. -/
def stopFlash (m : MonitorState) : MonitorState :=
  if m.flashInterval then
    { m with flashInterval := false, liveFlashTimers := m.liveFlashTimers - 1 }
  else m

/-- Embedding of `setAgentStatusDisplay` (lines 54-72): dedup check first
(same state is a no-op), then per-state visual side effects. -/
def setAgentStatusDisplay (status : Status) (m : MonitorState) : MonitorState :=
  if status = m.currentStatus then m
  else
    let m1 := { m with currentStatus := status, events := m.events ++ [status] }
    match status with
    | Status.thinking => startFlash { m1 with itemShown := true }
    | Status.idle => { stopFlash m1 with itemShown := true }
    | Status.hidden => { stopFlash m1 with itemShown := false }

/-- Embedding of `onRequestActivity` (lines 74-77): record the request
timestamp and force `thinking`. -/
def onRequestActivity (now : Nat) (m : MonitorState) : MonitorState :=
  setAgentStatusDisplay Status.thinking { m with lastRequestTime := now }

/-- Embedding of one tick of the poll loop installed by
`startActivityPolling` (lines 79-86): do nothing before the first request
(`lastRequestTime = 0`); otherwise move `thinking` to `idle` once the
idle threshold has elapsed since the last request. -/
def pollTick (now : Nat) (m : MonitorState) : MonitorState :=
  if m.lastRequestTime = 0 then m
  else if m.currentStatus = Status.thinking ∧
      IDLE_AFTER_MS ≤ now - m.lastRequestTime then
    setAgentStatusDisplay Status.idle m
  else m

/-- Fold a list of poll-tick times over the monitor state. -/
def processPolls (ts : List Nat) (m : MonitorState) : MonitorState :=
  ts.foldl (fun m t => pollTick t m) m

/-- A timed event hitting the Activity Monitor: an accepted inbound
request or a tick of the periodic idle check. -/
inductive TEvent where
  | request (t : Nat)
  | poll (t : Nat)
  deriving DecidableEq, Repr

/-- Run a timeline of monitor events. -/
def runTimeline (evs : List TEvent) (m : MonitorState) : MonitorState :=
  evs.foldl
    (fun m e =>
      match e with
      | TEvent.request t => onRequestActivity t m
      | TEvent.poll t => pollTick t m) m

/-- A timeline is a sub-threshold burst relative to the most recent request
time `last`: each further request arrives no earlier than `last` and within
the idle threshold of it, and each interleaved poll tick fires before the
threshold has elapsed since `last` (which is automatic for monotone
timestamps when the request gaps are sub-threshold). -/
def burstOk : Nat → List TEvent → Prop
  | _, [] => True
  | last, TEvent.request t :: rest =>
      last ≤ t ∧ t - last < IDLE_AFTER_MS ∧ burstOk t rest
  | last, TEvent.poll t :: rest =>
      t - last < IDLE_AFTER_MS ∧ burstOk last rest

/-- The time of the last request in a timeline, starting from `last`. -/
def lastReq : Nat → List TEvent → Nat
  | last, [] => last
  | _, TEvent.request t :: rest => lastReq t rest
  | last, TEvent.poll _ :: rest => lastReq last rest

/-! ## Control-plane data model

JSON values, the request/response shapes of the control channel, and the
host-facing state the command handlers touch. The host (the editor's
native API surface) is modelled at its interface boundary: a terminal
list, an active terminal, the open-file paths, and an oracle for
`executeCommand` results.
-/

/-- JSON values, the duck-typed payloads of the control plane. `null`
also stands for JavaScript `undefined` (the code only ever tests
`result == null`, which conflates the two). -/
inductive JVal where
  | null
  | bool (b : Bool)
  | num (n : Int)
  | str (s : String)
  | arr (xs : List JVal)
  | obj (fields : List (String × JVal))
  deriving Repr

mutual

/-- Compact model of `JSON.stringify` on the closed value variant (the
source pretty-prints with 2-space indentation; only which branch fires is
contract-relevant). -/
def jsonStringify : JVal → String
  | JVal.null => "null"
  | JVal.bool b => if b then "true" else "false"
  | JVal.num n => toString n
  | JVal.str s => "\"" ++ s ++ "\""
  | JVal.arr xs => "[" ++ jsonStringifyList xs ++ "]"
  | JVal.obj fs => "\x7b" ++ jsonStringifyFields fs ++ "\x7d"

/-- Serialize array elements, comma-separated. -/
def jsonStringifyList : List JVal → String
  | [] => ""
  | [x] => jsonStringify x
  | x :: xs => jsonStringify x ++ "," ++ jsonStringifyList xs

/-- Serialize object fields, comma-separated. -/
def jsonStringifyFields : List (String × JVal) → String
  | [] => ""
  | [(k, v)] => "\"" ++ k ++ "\":" ++ jsonStringify v
  | (k, v) :: fs => "\"" ++ k ++ "\":" ++ jsonStringify v ++ "," ++ jsonStringifyFields fs

end

/-- An open integrated terminal as the host reports it. The `id` field
stands for object identity (the host hands out distinct objects). -/
structure Terminal where
  id : Nat
  name : String
  processId : Int
  deriving DecidableEq, Repr

/-- The host-facing state the command handlers read and write. The
`execResult` oracle is what `vscode.commands.executeCommand` yields
(`none` models `undefined`/`null`, triggering the `??` fallback). -/
structure Host where
  terminals : List Terminal
  activeTerminal : Option Terminal
  openFilePaths : List String
  execResult : String → List JVal → Option JVal
  defaultTerminalName : String
  nextTerminalId : Nat
  nextProcessId : Int

/-- A concrete host for closed evaluations: two terminals, the first
active. -/
def sampleHost : Host :=
  { terminals := [⟨0, "zsh", 111⟩, ⟨1, "node", 222⟩]
    activeTerminal := some ⟨0, "zsh", 111⟩
    openFilePaths := []
    execResult := fun _ _ => none
    defaultTerminalName := "zsh"
    nextTerminalId := 2
    nextProcessId := 333 }

/-- The argument object of a control-plane request, with one optional
field per property the handlers access (`none` models an absent
property, i.e. JavaScript `undefined`). -/
structure Args where
  path : Option String := none
  message : Option String := none
  command : Option String := none
  cmdArgs : Option (List JVal) := none
  name : Option String := none
  cwd : Option String := none
  shellPath : Option String := none
  env : Option (List (String × String)) := none
  showOpt : Option Bool := none
  text : Option String := none
  addNewLine : Option Bool := none
  preserveFocus : Option Bool := none
  index : Option Int := none
  status : Option String := none

/-- Template-literal coercion of a possibly-absent string, as in
`` `Agent status: ${args.status}` ``. -/
def jsStr (o : Option String) : String := o.getD "undefined"

/-- The body of a control-plane request, `{command, args}`; a missing
`args` property is defaulted to `{}` by the listener (`args || {}`). -/
structure ReqBody where
  command : String
  args : Option Args

/-- A control-plane response body: `{success: true, result}` or
`{success: false, error}`. -/
inductive RespBody where
  | success (result : JVal)
  | failure (error : String)

/-- What the listener writes back on the wire: the 405 method-not-allowed
path ends the connection with no body; every other path delivers a
parseable JSON body. -/
inductive HttpResponse where
  | noBody (statusCode : Nat)
  | jsonBody (statusCode : Nat) (body : RespBody)

/-- Embedding of `findTerminal` (`part_001` lines 141-157): `name` wins
over `index`; an explicit `index` must be in `[0, terminalCount)`;
otherwise the active terminal is used. Failures are the thrown message
strings of the source. -/
def findTerminal (terminals : List Terminal) (active : Option Terminal)
    (args : Args) : Except String Terminal :=
  match args.name with
  | some n =>
    match terminals.find? (fun t => t.name == n) with
    | some t => Except.ok t
    | none => Except.error ("No terminal named \"" ++ n ++ "\"")
  | none =>
  match args.index with
  | some i =>
    if h : i < 0 ∨ (terminals.length : Int) ≤ i then
      Except.error ("Terminal index " ++ toString i ++ " out of range (0-"
        ++ toString ((terminals.length : Int) - 1) ++ ")")
    else
      Except.ok (terminals.get ⟨i.toNat, by omega⟩)
  | none =>
  match active with
  | some t => Except.ok t
  | none => Except.error "No active terminal"

/-- The `listTerminals` result: ordered entries with index, name, active
flag and process id. -/
def listTerminalsResult (h : Host) : List JVal :=
  h.terminals.enum.map fun it =>
    JVal.obj [("index", JVal.num it.1), ("name", JVal.str it.2.name),
      ("isActive", JVal.bool (h.activeTerminal == some it.2)),
      ("processId", JVal.num it.2.processId)]

/-- The command names the dispatch table of `handleCommand` recognises. -/
def knownCommands : List String :=
  ["saveAll", "closeAllEditors", "closeActiveEditor", "openFile",
   "getOpenFiles", "showMessage", "executeCommand", "listTerminals",
   "createTerminal", "sendTerminalText", "closeTerminal", "showTerminal",
   "setAgentStatus"]

/-- Embedding of `handleCommand` (`part_001` lines 159-254). Host API
calls whose effects the host keeps to itself (saving files, closing tabs,
showing messages, sending text to a terminal, showing or disposing a
terminal — disposal updates the host's terminal list asynchronously) are
not tracked; `createTerminal` appends the new terminal as the host does.
A thrown error is `Except.error` with the thrown message; the monitor
state changes only in the `setAgentStatus` branch, via the same
transition function the Activity Monitor uses. -/
def handleCommand (cmd : String) (args : Args) (h : Host) (m : MonitorState) :
    Except String JVal × Host × MonitorState :=
  if cmd = "saveAll" then (Except.ok (JVal.str "All files saved"), h, m)
  else if cmd = "closeAllEditors" then
    (Except.ok (JVal.str "All editors closed"), h, m)
  else if cmd = "closeActiveEditor" then
    (Except.ok (JVal.str "Active editor closed"), h, m)
  else if cmd = "openFile" then
    (Except.ok (JVal.str ("Opened " ++ jsStr args.path)), h, m)
  else if cmd = "getOpenFiles" then
    (Except.ok (JVal.arr (h.openFilePaths.map JVal.str)), h, m)
  else if cmd = "showMessage" then (Except.ok (JVal.str "Message shown"), h, m)
  else if cmd = "executeCommand" then
    let c := jsStr args.command
    (Except.ok ((h.execResult c (args.cmdArgs.getD [])).getD
      (JVal.str ("Executed " ++ c))), h, m)
  else if cmd = "listTerminals" then
    (Except.ok (JVal.arr (listTerminalsResult h)), h, m)
  else if cmd = "createTerminal" then
    let t : Terminal :=
      { id := h.nextTerminalId
        name := match args.name with
          | some n => if n = "" then h.defaultTerminalName else n
          | none => h.defaultTerminalName
        processId := h.nextProcessId }
    (Except.ok (JVal.obj [("name", JVal.str t.name),
        ("index", JVal.num (h.terminals.length : Int))]),
     { h with terminals := h.terminals ++ [t],
              nextTerminalId := h.nextTerminalId + 1,
              nextProcessId := h.nextProcessId + 1 }, m)
  else if cmd = "sendTerminalText" then
    match findTerminal h.terminals h.activeTerminal args with
    | Except.ok t =>
      (Except.ok (JVal.str ("Sent text to terminal \"" ++ t.name ++ "\"")), h, m)
    | Except.error e => (Except.error e, h, m)
  else if cmd = "closeTerminal" then
    match findTerminal h.terminals h.activeTerminal args with
    | Except.ok t =>
      (Except.ok (JVal.str ("Closed terminal \"" ++ t.name ++ "\"")), h, m)
    | Except.error e => (Except.error e, h, m)
  else if cmd = "showTerminal" then
    match findTerminal h.terminals h.activeTerminal args with
    | Except.ok t =>
      (Except.ok (JVal.str ("Showing terminal \"" ++ t.name ++ "\"")), h, m)
    | Except.error e => (Except.error e, h, m)
  else if cmd = "setAgentStatus" then
    let m2 :=
      if args.status = some "thinking" then
        setAgentStatusDisplay Status.thinking m
      else if args.status = some "idle" then
        setAgentStatusDisplay Status.idle m
      else setAgentStatusDisplay Status.hidden m
    (Except.ok (JVal.str ("Agent status: " ++ jsStr args.status)), h, m2)
  else (Except.error ("Unknown command: " ++ cmd), h, m)

/-- Embedding of the request listener installed by `activate`
(`part_001` lines 95-118): non-POST requests are rejected with a bodyless
405; otherwise request activity is marked (`onRequestActivity`, at time
`t1`), the body is parsed (`body = Except.error e` models a
`JSON.parse` failure with message `e`), the command is dispatched, and —
only on success — request activity is marked again (time `t2`) before the
200 response; a thrown handler error yields a 500 failure body. -/
def handleRequest (method : String) (body : Except String ReqBody)
    (t1 t2 : Nat) (h : Host) (m : MonitorState) :
    HttpResponse × Host × MonitorState :=
  if method ≠ "POST" then (HttpResponse.noBody 405, h, m)
  else
    let m1 := onRequestActivity t1 m
    match body with
    | Except.error e => (HttpResponse.jsonBody 500 (RespBody.failure e), h, m1)
    | Except.ok b =>
      match handleCommand b.command (b.args.getD {}) h m1 with
      | (Except.ok r, h2, m2) =>
        (HttpResponse.jsonBody 200 (RespBody.success r), h2,
         onRequestActivity t2 m2)
      | (Except.error e, h2, m2) =>
        (HttpResponse.jsonBody 500 (RespBody.failure e), h2, m2)

/-- Flash-timer safety: at most one `setInterval` timer is live, the
`flashInterval` handle holds a timer exactly when one is live, and no
timer is live outside the `thinking` state. -/
def flashInv (m : MonitorState) : Prop :=
  m.liveFlashTimers ≤ 1 ∧
  (m.flashInterval = true ↔ m.liveFlashTimers = 1) ∧
  (m.currentStatus ≠ Status.thinking → m.flashInterval = false)

/-- An event hitting the whole listener process: an HTTP request (with
its activity-mark times) or a tick of the idle-check interval. -/
inductive SysEvent where
  | http (method : String) (body : Except String ReqBody) (t1 t2 : Nat)
  | tick (t : Nat)

/-- Run a sequence of listener-process events over host and monitor. -/
def runSys (evs : List SysEvent) (h : Host) (m : MonitorState) :
    Host × MonitorState :=
  evs.foldl
    (fun hm e =>
      match e with
      | SysEvent.http me b t1 t2 =>
        ((handleRequest me b t1 t2 hm.1 hm.2).2.1,
         (handleRequest me b t1 t2 hm.1 hm.2).2.2)
      | SysEvent.tick t => (hm.1, pollTick t hm.2)) (h, m)

/-! ## Bridge (MCP side)

Source: `mcp-bridge.mjs` (`part_003`, first revision, lines 39-272).
Every tool handler is of the form `(args) => sendCommand(cmd, map(args))`,
so the tool table is modelled as declarative descriptors. The network is
an explicit function from the resolved port and the request to the parsed
response body (`Except.error` models a thrown `fetch`/JSON failure). The
best-effort `setAgentStatus` pings around a batch swallow every failure
and do not touch the returned tool response, so they are not modelled
here. -/

/-- JavaScript property access `a.k` on a duck-typed value (`undefined`
and `null` are conflated as `JVal.null`). -/
def jvGet (v : JVal) (k : String) : JVal :=
  match v with
  | JVal.obj fs => (fs.lookup k).getD JVal.null
  | _ => JVal.null

/-- A tool descriptor: outer tool name, control-plane command, and the
pure mapping from tool arguments to command arguments. -/
structure ToolSpec where
  name : String
  command : String
  mapArgs : JVal → JVal

/-- The bridge's `TOOLS` table (`part_003` lines 51-217). -/
def TOOLS : List ToolSpec :=
  [⟨"save_all_files", "saveAll", fun _ => JVal.obj []⟩,
   ⟨"close_all_editors", "closeAllEditors", fun _ => JVal.obj []⟩,
   ⟨"close_active_editor", "closeActiveEditor", fun _ => JVal.obj []⟩,
   ⟨"open_file", "openFile", fun a => JVal.obj [("path", jvGet a "path")]⟩,
   ⟨"get_open_files", "getOpenFiles", fun _ => JVal.obj []⟩,
   ⟨"show_message", "showMessage",
     fun a => JVal.obj [("message", jvGet a "message")]⟩,
   ⟨"execute_command", "executeCommand",
     fun a => JVal.obj [("command", jvGet a "command"), ("args", jvGet a "args")]⟩,
   ⟨"list_terminals", "listTerminals", fun _ => JVal.obj []⟩,
   ⟨"create_terminal", "createTerminal", fun a => a⟩,
   ⟨"send_terminal_text", "sendTerminalText", fun a => a⟩,
   ⟨"show_terminal", "showTerminal", fun a => a⟩,
   ⟨"close_terminal", "closeTerminal", fun a => a⟩]

/-- Embedding of the bridge's `sendCommand` (`part_003` lines 39-49):
resolve the port, perform the request, and unwrap `{success, result}` —
a `success: false` body is re-thrown as its `error` string. -/
def sendCommand (home : String) (read : String → Option String) (cwd : String)
    (net : Option Int → String → JVal → Except String RespBody)
    (command : String) (args : JVal) : Except String JVal :=
  match getPort home read cwd with
  | Except.error e => Except.error e
  | Except.ok port =>
    match net port command args with
    | Except.error e => Except.error e
    | Except.ok (RespBody.success r) => Except.ok r
    | Except.ok (RespBody.failure e) => Except.error e

/-- One content block of an MCP tool response. -/
structure ContentBlock where
  type : String
  text : String

/-- An MCP tool response: content blocks plus the error tag (`isError`
is absent, i.e. falsy, on success). -/
structure ToolResponse where
  content : List ContentBlock
  isError : Bool

/-- The bridge's stringification of a successful control-plane result
(`part_003` lines 258-260): `null`/`undefined` becomes `"OK"`, a string
passes through unchanged, anything else is JSON-serialized. -/
def stringifyResult (r : JVal) : String :=
  match r with
  | JVal.null => "OK"
  | JVal.str s => s
  | v => jsonStringify v

/-- Embedding of the bridge's `CallToolRequestSchema` handler
(`part_003` lines 243-272): unknown tools and thrown handler errors both
become tool-level error results; a successful result is stringified into
a single text block. -/
def callTool (home : String) (read : String → Option String) (cwd : String)
    (net : Option Int → String → JVal → Except String RespBody)
    (name : String) (args : JVal) : ToolResponse :=
  match TOOLS.find? (fun t => t.name == name) with
  | none => ⟨[⟨"text", "Unknown tool: " ++ name⟩], true⟩
  | some tool =>
    match sendCommand home read cwd net tool.command (tool.mapArgs args) with
    | Except.ok result => ⟨[⟨"text", stringifyResult result⟩], false⟩
    | Except.error e => ⟨[⟨"text", "Error: " ++ e⟩], true⟩

/-- A filesystem with no discovery record at all. -/
def emptyRead : String → Option String := fun _ => none

/-! ## Theorems -/

theorem replSlash_ne_slash (c : Char) : replSlash c ≠ '/' := by
  by_cases h : c = '/'
  · subst h; decide
  · simp [replSlash, h]

theorem stripLeadingSlash_of_head_ne (cs : List Char)
    (h : ∀ c ∈ cs.head?, c ≠ '/') : stripLeadingSlash cs = cs := by
  cases cs with
  | nil => rfl
  | cons c rest =>
    have hc : c ≠ '/' := h c rfl
    simp [stripLeadingSlash, hc]

theorem replSlash_idem (c : Char) : replSlash (replSlash c) = replSlash c := by
  by_cases h : c = '/'
  · subst h; decide
  · simp [replSlash, h]

/-- C7: sanitisation is idempotent and its output never contains a path
separator: for every workspace path `P`, `sanitize (sanitize P) = sanitize P`
and no character of `sanitize P` is `/`. -/
theorem sanitize_idempotent_and_separator_free (P : String) :
    sanitizeWorkspacePath (sanitizeWorkspacePath P) = sanitizeWorkspacePath P ∧
    ∀ c ∈ (sanitizeWorkspacePath P).data, c ≠ '/' := by
  constructor
  · unfold sanitizeWorkspacePath
    have hdata : (String.mk ((stripLeadingSlash P.data).map replSlash)).data
        = (stripLeadingSlash P.data).map replSlash := rfl
    rw [hdata]
    have hstrip : stripLeadingSlash ((stripLeadingSlash P.data).map replSlash)
        = (stripLeadingSlash P.data).map replSlash := by
      apply stripLeadingSlash_of_head_ne
      intro c hc
      cases hl : (stripLeadingSlash P.data).map replSlash with
      | nil => simp [hl] at hc
      | cons d rest =>
        simp [hl] at hc
        subst hc
        have : d ∈ (stripLeadingSlash P.data).map replSlash := by simp [hl]
        obtain ⟨e, _, he⟩ := List.mem_map.mp this
        exact he ▸ replSlash_ne_slash e
    rw [hstrip, List.map_map]
    exact congrArg String.mk (List.map_congr_left fun c _ => replSlash_idem c)
  · intro c hc
    have hc' : c ∈ (stripLeadingSlash P.data).map replSlash := hc
    obtain ⟨e, _, he⟩ := List.mem_map.mp hc'
    exact he ▸ replSlash_ne_slash e

/-- Witness for C7 at a concrete path. -/
theorem sanitize_idempotent_witness :
    sanitizeWorkspacePath (sanitizeWorkspacePath "/Users/alice/proj")
      = sanitizeWorkspacePath "/Users/alice/proj" ∧
    ∀ c ∈ (sanitizeWorkspacePath "/Users/alice/proj").data, c ≠ '/' :=
  sanitize_idempotent_and_separator_free "/Users/alice/proj"

/-- C2 (amended): `getPort` checks exactly the three candidates in order —
workspace record, `_default` sentinel record, legacy single-file record —
and returns `parseInt` of the first candidate that can be read, even when
its contents do not parse (in which case the result is `NaN`, modelled as
`Except.ok none`, rather than falling through); it fails with the
discovery-miss error only when no candidate can be read. -/
theorem getPort_first_readable (home cwd : String)
    (read : String → Option String) (s : String) :
    (read (portsDir home ++ "/" ++ sanitizeWorkspacePath cwd) = some s →
      getPort home read cwd = Except.ok (jsParseInt (jsTrim s))) ∧
    (read (portsDir home ++ "/" ++ sanitizeWorkspacePath cwd) = none →
      read (portsDir home ++ "/_default") = some s →
      getPort home read cwd = Except.ok (jsParseInt (jsTrim s))) ∧
    (read (portsDir home ++ "/" ++ sanitizeWorkspacePath cwd) = none →
      read (portsDir home ++ "/_default") = none →
      read (legacyPortFile home) = some s →
      getPort home read cwd = Except.ok (jsParseInt (jsTrim s))) ∧
    (read (portsDir home ++ "/" ++ sanitizeWorkspacePath cwd) = none →
      read (portsDir home ++ "/_default") = none →
      read (legacyPortFile home) = none →
      getPort home read cwd = Except.error (notRunningMsg cwd)) := by
  refine ⟨fun h1 => ?_, fun h1 h2 => ?_, fun h1 h2 h3 => ?_, fun h1 h2 h3 => ?_⟩
  · simp [getPort, portCandidates, List.findSome?_cons, h1]
  · simp [getPort, portCandidates, List.findSome?_cons, h1, h2]
  · simp [getPort, portCandidates, List.findSome?_cons, h1, h2, h3]
  · simp [getPort, portCandidates, List.findSome?_cons, h1, h2, h3]

/-- Witness for C2 at a concrete store holding port 54321 for the
workspace record. -/
theorem getPort_first_readable_witness :
    goodRead (portsDir "/home/u" ++ "/" ++ sanitizeWorkspacePath "/Users/alice/proj")
      = some "54321" ∧
    getPort "/home/u" goodRead "/Users/alice/proj"
      = Except.ok (jsParseInt (jsTrim "54321")) := by
  refine ⟨by decide, ?_⟩
  exact (getPort_first_readable "/home/u" "/Users/alice/proj" goodRead "54321").1
    (by decide)

/-- Counterexample to C2 as stated: the workspace record exists but does
not parse as an integer, yet `getPort` does not fall through to the next
candidate and does not fail with a discovery miss — it returns the `NaN`
produced by `parseInt` (`Except.ok none`). -/
theorem getPort_unparseable_record_counterexample :
    badRead (portsDir "/home/u" ++ "/" ++ sanitizeWorkspacePath "/proj")
      = some "garbage" ∧
    jsParseInt (jsTrim "garbage") = none ∧
    getPort "/home/u" badRead "/proj" = Except.ok none := by
  refine ⟨by decide, by decide, ?_⟩
  simp [getPort, portCandidates, List.findSome?_cons,
    show badRead (portsDir "/home/u" ++ "/" ++ sanitizeWorkspacePath "/proj")
      = some "garbage" by decide,
    show jsParseInt (jsTrim "garbage") = none by decide]

theorem runTimeline_cons (e : TEvent) (evs : List TEvent) (m : MonitorState) :
    runTimeline (e :: evs) m
      = runTimeline evs
          (match e with
           | TEvent.request t => onRequestActivity t m
           | TEvent.poll t => pollTick t m) := rfl

theorem onRequestActivity_of_thinking (t : Nat) (m : MonitorState)
    (h : m.currentStatus = Status.thinking) :
    onRequestActivity t m = { m with lastRequestTime := t } := by
  unfold onRequestActivity setAgentStatusDisplay
  simp [h]

theorem pollTick_noop_below (t : Nat) (m : MonitorState)
    (h0 : m.lastRequestTime ≠ 0)
    (h : t - m.lastRequestTime < IDLE_AFTER_MS) : pollTick t m = m := by
  have hn : ¬ IDLE_AFTER_MS ≤ t - m.lastRequestTime := by omega
  simp [pollTick, h0, hn]

theorem pollTick_noop_not_thinking (t : Nat) (m : MonitorState)
    (h : m.currentStatus ≠ Status.thinking) : pollTick t m = m := by
  simp [pollTick, h]

theorem burst_steady (evs : List TEvent) :
    ∀ (m : MonitorState) (L : Nat),
      m.currentStatus = Status.thinking → m.lastRequestTime = L → 1 ≤ L →
      burstOk L evs →
      runTimeline evs m = { m with lastRequestTime := lastReq L evs } := by
  induction evs with
  | nil =>
    intro m L hs hL _ _
    subst hL
    rfl
  | cons e rest ih =>
    intro m L hs hL h1 hb
    cases e with
    | request t =>
      obtain ⟨hle, _, hb'⟩ := hb
      rw [runTimeline_cons]
      have hstep := onRequestActivity_of_thinking t m hs
      simp only [hstep]
      have := ih { m with lastRequestTime := t } t hs rfl (le_trans h1 hle) hb'
      simpa [lastReq] using this
    | poll t =>
      obtain ⟨hlt, hb'⟩ := hb
      rw [runTimeline_cons]
      have h0 : m.lastRequestTime ≠ 0 := by omega
      have hstep := pollTick_noop_below t m h0 (by rw [hL]; exact hlt)
      simp only [hstep]
      have := ih m L hs hL h1 hb'
      simpa [lastReq] using this

theorem lastReq_ge (evs : List TEvent) :
    ∀ L : Nat, burstOk L evs → L ≤ lastReq L evs := by
  induction evs with
  | nil => intro L _; exact le_refl L
  | cons e rest ih =>
    intro L hb
    cases e with
    | request t =>
      obtain ⟨hle, _, hb'⟩ := hb
      exact le_trans hle (ih t hb')
    | poll t =>
      obtain ⟨_, hb'⟩ := hb
      exact ih L hb'

theorem setDisplay_idle_of_thinking (m : MonitorState)
    (h : m.currentStatus = Status.thinking) :
    (setAgentStatusDisplay Status.idle m).events = m.events ++ [Status.idle] ∧
    (setAgentStatusDisplay Status.idle m).currentStatus = Status.idle ∧
    (setAgentStatusDisplay Status.idle m).lastRequestTime = m.lastRequestTime := by
  unfold setAgentStatusDisplay
  rw [if_neg (by simp [h])]
  dsimp only
  unfold stopFlash
  by_cases hf : m.flashInterval <;> simp [hf]

theorem processPolls_cons (p : Nat) (ps : List Nat) (m : MonitorState) :
    processPolls (p :: ps) m = processPolls ps (pollTick p m) := rfl

theorem processPolls_idle (ps : List Nat) :
    ∀ m : MonitorState, m.currentStatus = Status.idle → processPolls ps m = m := by
  induction ps with
  | nil => intro m _; rfl
  | cons p ps ih =>
    intro m h
    rw [processPolls_cons, pollTick_noop_not_thinking p m (by simp [h])]
    exact ih m h

theorem processPolls_after_threshold (ps : List Nat) :
    ∀ m : MonitorState,
      m.currentStatus = Status.thinking → m.lastRequestTime ≠ 0 →
      (∃ p ∈ ps, IDLE_AFTER_MS ≤ p - m.lastRequestTime) →
      processPolls ps m = setAgentStatusDisplay Status.idle m := by
  induction ps with
  | nil =>
    intro m _ _ hex
    simp at hex
  | cons p ps ih =>
    intro m hs h0 hex
    by_cases hp : IDLE_AFTER_MS ≤ p - m.lastRequestTime
    · rw [processPolls_cons]
      have hfire : pollTick p m = setAgentStatusDisplay Status.idle m := by
        simp [pollTick, h0, hs, hp]
      rw [hfire]
      exact processPolls_idle ps _ (setDisplay_idle_of_thinking m hs).2.1
    · rw [processPolls_cons,
        pollTick_noop_below p m h0 (by omega)]
      apply ih m hs h0
      rcases hex with ⟨q, hq, hqle⟩
      rcases List.mem_cons.mp hq with hq | hq
      · exact absurd (hq ▸ hqle) hp
      · exact ⟨q, hq, hqle⟩

/-- C9: before the first inbound request is observed (`lastRequestTime`
still 0), the periodic idle check never changes anything: any number of
poll ticks leaves the monitor in its initial state, so the presence state
remains the initial `hidden`. -/
theorem polls_before_first_request_keep_hidden (ps : List Nat) :
    processPolls ps initialMonitor = initialMonitor ∧
    (processPolls ps initialMonitor).currentStatus = Status.hidden := by
  have h : processPolls ps initialMonitor = initialMonitor := by
    induction ps with
    | nil => rfl
    | cons p ps ih =>
      rw [processPolls_cons]
      have hstep : pollTick p initialMonitor = initialMonitor := rfl
      rw [hstep]
      exact ih
  exact ⟨h, by rw [h]; rfl⟩

/-- C3: a sub-threshold burst of `N ≥ 1` requests (with interleaved poll
ticks that fire before the idle threshold elapses) makes the presence
state machine enter `thinking` exactly once — the entered-state trace of
the burst is precisely `[thinking]` — and once some later poll tick
observes the threshold elapsed after the last request, the machine enters
`idle` exactly once: the final trace is precisely `[thinking, idle]`. -/
theorem presence_burst_thinking_once_then_idle_once
    (t0 : Nat) (rest : List TEvent) (ps : List Nat)
    (h0 : 1 ≤ t0) (hb : burstOk t0 rest)
    (hp : ∃ p ∈ ps, IDLE_AFTER_MS ≤ p - lastReq t0 rest) :
    (runTimeline (TEvent.request t0 :: rest) initialMonitor).events
      = [Status.thinking] ∧
    (runTimeline (TEvent.request t0 :: rest) initialMonitor).currentStatus
      = Status.thinking ∧
    (processPolls ps (runTimeline (TEvent.request t0 :: rest) initialMonitor)).events
      = [Status.thinking, Status.idle] ∧
    (processPolls ps (runTimeline (TEvent.request t0 :: rest) initialMonitor)).currentStatus
      = Status.idle := by
  have hm1 : onRequestActivity t0 initialMonitor
      = { currentStatus := Status.thinking, lastRequestTime := t0,
          flashInterval := true, flashOn := true, itemShown := true,
          liveFlashTimers := 1, events := [Status.thinking] } := rfl
  have hB : runTimeline (TEvent.request t0 :: rest) initialMonitor
      = { currentStatus := Status.thinking, lastRequestTime := lastReq t0 rest,
          flashInterval := true, flashOn := true, itemShown := true,
          liveFlashTimers := 1, events := [Status.thinking] } := by
    rw [runTimeline_cons]
    simp only [hm1]
    exact burst_steady rest _ t0 rfl rfl h0 hb
  have hlast : 1 ≤ lastReq t0 rest := le_trans h0 (lastReq_ge rest t0 hb)
  have hFinal : processPolls ps (runTimeline (TEvent.request t0 :: rest) initialMonitor)
      = setAgentStatusDisplay Status.idle
          (runTimeline (TEvent.request t0 :: rest) initialMonitor) := by
    apply processPolls_after_threshold
    · rw [hB]
    · rw [hB]; simp; omega
    · rw [hB]; simpa using hp
  have hset := setDisplay_idle_of_thinking
    (runTimeline (TEvent.request t0 :: rest) initialMonitor) (by rw [hB])
  refine ⟨by rw [hB], by rw [hB], ?_, ?_⟩
  · rw [hFinal, hset.1, hB]; rfl
  · rw [hFinal, hset.2.1]

/-- Witness for C3: a concrete burst of two requests with an interleaved
poll tick, followed by polls of which the second observes the elapsed
threshold. -/
theorem presence_burst_witness :
    (runTimeline [TEvent.request 1000, TEvent.poll 2000, TEvent.request 3000]
        initialMonitor).events = [Status.thinking] ∧
    (runTimeline [TEvent.request 1000, TEvent.poll 2000, TEvent.request 3000]
        initialMonitor).currentStatus = Status.thinking ∧
    (processPolls [4000, 12000]
        (runTimeline [TEvent.request 1000, TEvent.poll 2000, TEvent.request 3000]
          initialMonitor)).events = [Status.thinking, Status.idle] ∧
    (processPolls [4000, 12000]
        (runTimeline [TEvent.request 1000, TEvent.poll 2000, TEvent.request 3000]
          initialMonitor)).currentStatus = Status.idle :=
  presence_burst_thinking_once_then_idle_once 1000
    [TEvent.poll 2000, TEvent.request 3000] [4000, 12000]
    (by norm_num)
    (by refine ⟨?_, ?_, ?_, trivial⟩ <;> norm_num [IDLE_AFTER_MS])
    (by refine ⟨12000, by simp, ?_⟩; norm_num [lastReq, IDLE_AFTER_MS])

/-- C1 (code bug, evaluated at the failing input): an accepted
`setAgentStatus` request with `status = "idle"` is answered with a
success body, and the handler does set the presence state to `idle` —
but the listener marks request activity again right after the handler
(line 110 of `part_001`), so once handling finishes the presence state is
`thinking`, not the requested `idle`: the explicit override does not
survive its own request. -/
theorem setAgentStatus_idle_request_ends_thinking :
    (handleRequest "POST"
        (Except.ok ⟨"setAgentStatus", some { status := some "idle" }⟩)
        1000 1001 sampleHost initialMonitor).1
      = HttpResponse.jsonBody 200
          (RespBody.success (JVal.str "Agent status: idle")) ∧
    (handleCommand "setAgentStatus" { status := some "idle" } sampleHost
        (onRequestActivity 1000 initialMonitor)).2.2.currentStatus
      = Status.idle ∧
    (handleRequest "POST"
        (Except.ok ⟨"setAgentStatus", some { status := some "idle" }⟩)
        1000 1001 sampleHost initialMonitor).2.2.currentStatus
      = Status.thinking ∧
    Status.thinking ≠ Status.idle :=
  ⟨rfl, rfl, rfl, by decide⟩

theorem find?_eq_of_unique (ts : List Terminal) (n : String) (t : Terminal)
    (ht : t ∈ ts) (hn : t.name = n)
    (huniq : ∀ u ∈ ts, u.name = n → u = t) :
    ts.find? (fun u => u.name == n) = some t := by
  induction ts with
  | nil => cases ht
  | cons u rest ih =>
    by_cases hu : u.name = n
    · have heq : u = t := huniq u (List.mem_cons_self u rest) hu
      subst heq
      exact List.find?_cons_of_pos _ (by simp [hu])
    · rw [List.find?_cons_of_neg _ (by simp [hu])]
      refine ih ?_ ?_
      · rcases List.mem_cons.mp ht with h | h
        · exact absurd (h ▸ hn) hu
        · exact h
      · intro v hv hvn
        exact huniq v (List.mem_cons_of_mem _ hv) hvn

/-- C4: terminal resolution obeys the precedence name > index > active:
a given `name` makes the `index` irrelevant and resolves to the unique
open terminal of that name, or fails with the no-such-terminal error; an
`index` alone fails with the out-of-range error unless
`0 ≤ index < terminalCount` and otherwise returns the terminal at that
position; with neither, the active terminal is returned, or the
no-active-terminal error raised. -/
theorem findTerminal_precedence (ts : List Terminal) (active : Option Terminal)
    (n : String) (i : Int) (t : Terminal) :
    (findTerminal ts active { name := some n, index := some i }
       = findTerminal ts active { name := some n }) ∧
    (t ∈ ts → t.name = n → (∀ u ∈ ts, u.name = n → u = t) →
      ∀ io : Option Int,
        findTerminal ts active { name := some n, index := io }
          = Except.ok t) ∧
    ((∀ u ∈ ts, u.name ≠ n) →
      findTerminal ts active { name := some n, index := some i }
        = Except.error ("No terminal named \"" ++ n ++ "\"")) ∧
    (0 ≤ i → ∀ hlt : i.toNat < ts.length,
      findTerminal ts active { index := some i }
        = Except.ok (ts.get ⟨i.toNat, hlt⟩)) ∧
    ((i < 0 ∨ (ts.length : Int) ≤ i) →
      findTerminal ts active { index := some i }
        = Except.error ("Terminal index " ++ toString i ++ " out of range (0-"
            ++ toString ((ts.length : Int) - 1) ++ ")")) ∧
    (∀ u : Terminal, active = some u →
      findTerminal ts active {} = Except.ok u) ∧
    (active = none → findTerminal ts active {} = Except.error "No active terminal") := by
  refine ⟨rfl, ?_, ?_, ?_, ?_, ?_, ?_⟩
  · intro h1 h2 h3 io
    simp [findTerminal, find?_eq_of_unique ts n t h1 h2 h3]
  · intro hnone
    have : ts.find? (fun u => u.name == n) = none := by
      rw [List.find?_eq_none]
      intro u hu
      simp [hnone u hu]
    simp [findTerminal, this]
  · intro hi hlt
    have hcond : ¬(i < 0 ∨ (ts.length : Int) ≤ i) := by omega
    unfold findTerminal
    dsimp only
    rw [dif_neg hcond]
  · intro hcond
    unfold findTerminal
    dsimp only
    rw [dif_pos hcond]
  · intro u hu
    subst hu
    rfl
  · intro hu
    subst hu
    rfl

/-- Witness for C4: in a host with terminals `zsh` (active) and `node`,
a request naming `node` while also passing the out-of-range index 5
resolves to `node`. -/
theorem findTerminal_precedence_witness :
    findTerminal [⟨0, "zsh", 111⟩, ⟨1, "node", 222⟩] (some ⟨0, "zsh", 111⟩)
      { name := some "node", index := some 5 }
      = Except.ok ⟨1, "node", 222⟩ :=
  (findTerminal_precedence [⟨0, "zsh", 111⟩, ⟨1, "node", 222⟩]
      (some ⟨0, "zsh", 111⟩) "node" 5 ⟨1, "node", 222⟩).2.1
    (by decide) (by decide) (by decide) (some 5)

/-- C5: a well-formed POST request whose command name is not in the
dispatch table is answered with the structured failure body
`{success: false, error: "Unknown command: X"}` — a parseable JSON body,
never the bodyless transport-level rejection. -/
theorem unknown_command_yields_failure_body (cmd : String) (args : Args)
    (t1 t2 : Nat) (h : Host) (m : MonitorState)
    (hc : cmd ∉ knownCommands) :
    handleRequest "POST" (Except.ok ⟨cmd, some args⟩) t1 t2 h m
      = (HttpResponse.jsonBody 500
          (RespBody.failure ("Unknown command: " ++ cmd)), h,
         onRequestActivity t1 m) := by
  simp only [knownCommands, List.mem_cons, List.not_mem_nil, or_false,
    not_or] at hc
  obtain ⟨h1, h2, h3, h4, h5, h6, h7, h8, h9, h10, h11, h12, h13⟩ := hc
  simp [handleRequest, handleCommand, h1, h2, h3, h4, h5, h6, h7, h8, h9,
    h10, h11, h12, h13]

/-- Witness for C5 at the concrete unknown command `frobnicate`. -/
theorem unknown_command_witness :
    handleRequest "POST" (Except.ok ⟨"frobnicate", some {}⟩) 5 6 sampleHost
        initialMonitor
      = (HttpResponse.jsonBody 500
          (RespBody.failure ("Unknown command: " ++ "frobnicate")), sampleHost,
         onRequestActivity 5 initialMonitor) :=
  unknown_command_yields_failure_body "frobnicate" {} 5 6 sampleHost
    initialMonitor (by decide)

theorem flashInv_setDisplay (st : Status) (m : MonitorState)
    (hi : flashInv m) : flashInv (setAgentStatusDisplay st m) := by
  obtain ⟨h1, h2, h3⟩ := hi
  unfold setAgentStatusDisplay startFlash stopFlash flashInv
  by_cases hd : st = m.currentStatus
  · rw [if_pos hd]
    exact ⟨h1, h2, h3⟩
  · rw [if_neg hd]
    cases st <;> by_cases hf : m.flashInterval <;> (simp_all; try omega)

theorem flashInv_onRequestActivity (t : Nat) (m : MonitorState)
    (hi : flashInv m) : flashInv (onRequestActivity t m) := by
  unfold onRequestActivity
  exact flashInv_setDisplay Status.thinking _ hi

theorem flashInv_pollTick (t : Nat) (m : MonitorState)
    (hi : flashInv m) : flashInv (pollTick t m) := by
  unfold pollTick
  split_ifs
  · exact hi
  · exact flashInv_setDisplay Status.idle m hi
  · exact hi

theorem flashInv_handleCommand (cmd : String) (args : Args) (h : Host)
    (m : MonitorState) (hi : flashInv m) :
    flashInv (handleCommand cmd args h m).2.2 := by
  unfold handleCommand
  by_cases c1 : cmd = "saveAll"
  · rw [if_pos c1]; exact hi
  rw [if_neg c1]
  by_cases c2 : cmd = "closeAllEditors"
  · rw [if_pos c2]; exact hi
  rw [if_neg c2]
  by_cases c3 : cmd = "closeActiveEditor"
  · rw [if_pos c3]; exact hi
  rw [if_neg c3]
  by_cases c4 : cmd = "openFile"
  · rw [if_pos c4]; exact hi
  rw [if_neg c4]
  by_cases c5 : cmd = "getOpenFiles"
  · rw [if_pos c5]; exact hi
  rw [if_neg c5]
  by_cases c6 : cmd = "showMessage"
  · rw [if_pos c6]; exact hi
  rw [if_neg c6]
  by_cases c7 : cmd = "executeCommand"
  · rw [if_pos c7]; exact hi
  rw [if_neg c7]
  by_cases c8 : cmd = "listTerminals"
  · rw [if_pos c8]; exact hi
  rw [if_neg c8]
  by_cases c9 : cmd = "createTerminal"
  · rw [if_pos c9]; exact hi
  rw [if_neg c9]
  by_cases c10 : cmd = "sendTerminalText"
  · rw [if_pos c10]
    cases findTerminal h.terminals h.activeTerminal args <;> exact hi
  rw [if_neg c10]
  by_cases c11 : cmd = "closeTerminal"
  · rw [if_pos c11]
    cases findTerminal h.terminals h.activeTerminal args <;> exact hi
  rw [if_neg c11]
  by_cases c12 : cmd = "showTerminal"
  · rw [if_pos c12]
    cases findTerminal h.terminals h.activeTerminal args <;> exact hi
  rw [if_neg c12]
  by_cases c13 : cmd = "setAgentStatus"
  · rw [if_pos c13]
    split_ifs <;> exact flashInv_setDisplay _ _ hi
  rw [if_neg c13]
  exact hi

theorem flashInv_handleRequest (me : String) (body : Except String ReqBody)
    (t1 t2 : Nat) (h : Host) (m : MonitorState) (hi : flashInv m) :
    flashInv (handleRequest me body t1 t2 h m).2.2 := by
  unfold handleRequest
  split_ifs
  · exact hi
  · cases body with
    | error e => exact flashInv_onRequestActivity t1 m hi
    | ok b =>
      have hc := flashInv_handleCommand b.command (b.args.getD {}) h
        (onRequestActivity t1 m) (flashInv_onRequestActivity t1 m hi)
      rcases hh : handleCommand b.command (b.args.getD {}) h
        (onRequestActivity t1 m) with ⟨r, h2, m2⟩
      rw [hh] at hc
      dsimp only
      rw [hh]
      cases r with
      | ok v => exact flashInv_onRequestActivity t2 m2 hc
      | error e => exact hc

theorem flashInv_runSys (evs : List SysEvent) :
    ∀ (h : Host) (m : MonitorState), flashInv m →
      flashInv (runSys evs h m).2 := by
  induction evs with
  | nil => intro h m hi; exact hi
  | cons e evs ih =>
    intro h m hi
    cases e with
    | http me b t1 t2 =>
      exact ih _ _ (flashInv_handleRequest me b t1 t2 h m hi)
    | tick t =>
      exact ih _ _ (flashInv_pollTick t m hi)

/-- C10: starting from activation, no sequence of listener events —
inbound HTTP requests (including explicit `setAgentStatus` overrides) and
idle-check ticks — ever leaves more than one flash interval live, and
whenever the presence state is not `thinking`, no flash interval exists
at all: starting the flash is a no-op when an interval already exists,
and every transition out of `thinking` clears it. -/
theorem at_most_one_flash_interval (evs : List SysEvent) (h : Host) :
    (runSys evs h initialMonitor).2.liveFlashTimers ≤ 1 ∧
    ((runSys evs h initialMonitor).2.currentStatus ≠ Status.thinking →
      (runSys evs h initialMonitor).2.flashInterval = false ∧
      (runSys evs h initialMonitor).2.liveFlashTimers = 0) := by
  have hinv : flashInv (runSys evs h initialMonitor).2 :=
    flashInv_runSys evs h initialMonitor (by refine ⟨?_, ?_, ?_⟩ <;> simp [initialMonitor])
  obtain ⟨h1, h2, h3⟩ := hinv
  refine ⟨h1, fun hne => ?_⟩
  have hf := h3 hne
  refine ⟨hf, ?_⟩
  have : (runSys evs h initialMonitor).2.liveFlashTimers ≠ 1 := by
    intro hone
    rw [h2.mpr hone] at hf
    cases hf
  omega

/-- Witness for C10: a request burst followed by a poll past the idle
threshold leaves the state `idle` with the flash interval cleared. -/
theorem at_most_one_flash_interval_witness :
    (runSys [SysEvent.http "POST" (Except.ok ⟨"saveAll", some {}⟩) 100 200,
             SysEvent.tick 9000]
        sampleHost initialMonitor).2.liveFlashTimers ≤ 1 ∧
    (runSys [SysEvent.http "POST" (Except.ok ⟨"saveAll", some {}⟩) 100 200,
             SysEvent.tick 9000]
        sampleHost initialMonitor).2.flashInterval = false ∧
    (runSys [SysEvent.http "POST" (Except.ok ⟨"saveAll", some {}⟩) 100 200,
             SysEvent.tick 9000]
        sampleHost initialMonitor).2.liveFlashTimers = 0 := by
  have h := at_most_one_flash_interval
    [SysEvent.http "POST" (Except.ok ⟨"saveAll", some {}⟩) 100 200,
     SysEvent.tick 9000] sampleHost
  have hne : (runSys [SysEvent.http "POST" (Except.ok ⟨"saveAll", some {}⟩) 100 200,
      SysEvent.tick 9000] sampleHost initialMonitor).2.currentStatus
      ≠ Status.thinking := by decide
  exact ⟨h.1, (h.2 hne).1, (h.2 hne).2⟩

theorem string_append_assoc (a b c : String) : a ++ b ++ c = a ++ (b ++ c) := by
  apply String.ext
  simp [String.data_append, List.append_assoc]

theorem getPort_emptyRead (home cwd : String) :
    getPort home emptyRead cwd = Except.error (notRunningMsg cwd) := rfl

theorem notRunningMsg_contains_not_running (cwd : String) :
    ∃ pre post, pre ++ "not running" ++ post = "Error: " ++ notRunningMsg cwd := by
  refine ⟨"Error: Cursor Commander extension is ",
    " for workspace " ++ cwd ++ ". Install the .vsix and restart Cursor.", ?_⟩
  unfold notRunningMsg
  simp only [← string_append_assoc]
  rw [show ("Error: Cursor Commander extension is " ++ "not running" : String)
        = "Error: Cursor Commander extension is not running" from by decide,
      show ("Error: Cursor Commander extension is not running" ++ " for workspace " : String)
        = "Error: Cursor Commander extension is not running for workspace " from by decide,
      show ("Error: " ++ "Cursor Commander extension is not running for workspace " : String)
        = "Error: Cursor Commander extension is not running for workspace " from by decide]

/-- C6: when endpoint resolution finds no discovery record at all (no
workspace record, no sentinel, no legacy file), invoking any tool of the
bridge's table returns a tool-level result tagged as an error whose
message contains "not running" — the thrown resolution failure is caught
and converted, never propagated as a transport exception. -/
theorem resolution_failure_yields_not_running_error
    (home cwd name : String) (args : JVal)
    (net : Option Int → String → JVal → Except String RespBody)
    (hname : name ∈ TOOLS.map ToolSpec.name) :
    callTool home emptyRead cwd net name args
      = ⟨[⟨"text", "Error: " ++ notRunningMsg cwd⟩], true⟩ ∧
    ∃ pre post, pre ++ "not running" ++ post = "Error: " ++ notRunningMsg cwd := by
  refine ⟨?_, notRunningMsg_contains_not_running cwd⟩
  have hsome : (TOOLS.find? (fun u => u.name == name)).isSome := by
    rw [List.find?_isSome]
    obtain ⟨u, hu, hue⟩ := List.mem_map.mp hname
    exact ⟨u, hu, by simp [hue]⟩
  obtain ⟨tool, ht⟩ := Option.isSome_iff_exists.mp hsome
  have hsend : sendCommand home emptyRead cwd net tool.command
      (tool.mapArgs args) = Except.error (notRunningMsg cwd) := by
    unfold sendCommand
    rw [getPort_emptyRead]
  unfold callTool
  rw [ht]
  dsimp only
  rw [hsend]

/-- Witness for C6: the `save_all_files` tool against an empty discovery
store. -/
theorem resolution_failure_witness :
    callTool "/home/u" emptyRead "/proj"
        (fun _ _ _ => Except.error "") "save_all_files" JVal.null
      = ⟨[⟨"text", "Error: " ++ notRunningMsg "/proj"⟩], true⟩ ∧
    ∃ pre post, pre ++ "not running" ++ post = "Error: " ++ notRunningMsg "/proj" :=
  resolution_failure_yields_not_running_error "/home/u" "/proj"
    "save_all_files" JVal.null (fun _ _ _ => Except.error "") (by decide)

/-- C8: the bridge's stringification of a successful control-plane result
is total and exhaustive over the closed variant: `null`/`undefined`
yields the text `OK`, a string passes through unchanged, and any other
value yields its JSON serialization; the success response carries exactly
one text content block, not tagged as an error. -/
theorem bridge_stringifies_success_result (home cwd name : String)
    (read : String → Option String)
    (net : Option Int → String → JVal → Except String RespBody)
    (args : JVal) (tool : ToolSpec) (r : JVal)
    (hfind : TOOLS.find? (fun u => u.name == name) = some tool)
    (hsend : sendCommand home read cwd net tool.command (tool.mapArgs args)
      = Except.ok r) :
    callTool home read cwd net name args
      = ⟨[⟨"text", stringifyResult r⟩], false⟩ ∧
    (callTool home read cwd net name args).content.length = 1 ∧
    stringifyResult JVal.null = "OK" ∧
    (∀ s, stringifyResult (JVal.str s) = s) ∧
    ((r ≠ JVal.null → (∀ s, r ≠ JVal.str s) →
      stringifyResult r = jsonStringify r)) := by
  have hc : callTool home read cwd net name args
      = ⟨[⟨"text", stringifyResult r⟩], false⟩ := by
    unfold callTool
    rw [hfind]
    dsimp only
    rw [hsend]
  refine ⟨hc, by rw [hc]; rfl, rfl, fun s => rfl, ?_⟩
  intro hnull hstr
  cases r with
  | null => exact absurd rfl hnull
  | str s => exact absurd rfl (hstr s)
  | bool b => rfl
  | num n => rfl
  | arr xs => rfl
  | obj fs => rfl

/-- Witness for C8: a working store and a network answering success with
a `null` result; the tool response is the single text block `OK`. -/
theorem bridge_stringifies_success_witness :
    callTool "/home/u" (fun _ => some "7") "/proj"
        (fun _ _ _ => Except.ok (RespBody.success JVal.null))
        "save_all_files" JVal.null
      = ⟨[⟨"text", stringifyResult JVal.null⟩], false⟩ ∧
    (callTool "/home/u" (fun _ => some "7") "/proj"
        (fun _ _ _ => Except.ok (RespBody.success JVal.null))
        "save_all_files" JVal.null).content.length = 1 ∧
    stringifyResult JVal.null = "OK" ∧
    (∀ s, stringifyResult (JVal.str s) = s) ∧
    ((JVal.null ≠ JVal.null → (∀ s, JVal.null ≠ JVal.str s) →
      stringifyResult JVal.null = jsonStringify JVal.null)) :=
  bridge_stringifies_success_result "/home/u" "/proj" "save_all_files"
    (fun _ => some "7") (fun _ _ _ => Except.ok (RespBody.success JVal.null))
    JVal.null ⟨"save_all_files", "saveAll", fun _ => JVal.obj []⟩ JVal.null
    rfl rfl

end CursorCommander
